import Mathlib

/-!
# Verification of the PromptEasy chat-sidebar extension

A shallow embedding of the extension's three modules —
`platformDetector.js`, `messageExtractor.js` and the sidebar manager —
with the DOM abstracted as a query interface.  Strings are modelled as
Lean `String`/`List Char`; JS `\s` is modelled as the ASCII whitespace
class; JS `slice`/`length` count characters.  Timers, logging and the
Chrome messaging channel are not modelled; storage writes are recorded
as an explicit effect list.
-/

set_option autoImplicit false

namespace PromptEasy

/-! ## Character and string helpers -/

/-- ASCII whitespace, the model of the JS `\s` character class. -/
def isWs (c : Char) : Bool :=
  c = ' ' || c = '\t' || c = '\n' || c = '\r' || c.toNat = 11 || c.toNat = 12

/-- JS `String.prototype.trim` on a character list: strip leading and
trailing whitespace. -/
def jsTrimL (l : List Char) : List Char :=
  ((l.dropWhile isWs).reverse.dropWhile isWs).reverse

/-- JS `text.trim()`. -/
def jsTrim (s : String) : String :=
  ⟨jsTrimL s.data⟩

/-- JS `text.replace(/\s+/g, ' ')`: each maximal whitespace run becomes a
single space.  The boolean flag records whether the previous character
was part of a whitespace run. -/
def collapseWsAux : Bool → List Char → List Char
  | _, [] => []
  | prevWs, c :: cs =>
    if isWs c then
      if prevWs then collapseWsAux true cs
      else ' ' :: collapseWsAux true cs
    else c :: collapseWsAux false cs

def collapseWs (l : List Char) : List Char := collapseWsAux false l

/-- The backtick character (U+0060), written numerically. -/
def chBacktick : Char := Char.ofNat 96

/-- JS `text.replace(/[`]/g, '')`: drop every backtick. -/
def stripBackticks (l : List Char) : List Char :=
  l.filter (fun c => !(c = chBacktick))

/--
The method `MessageExtractor.getPreview(text, length = 60)`:
normalize whitespace, strip backticks, trim, and truncate to `length`
characters plus an ellipsis when longer.
-/
def getPreview (text : String) (len : Nat := 60) : String :=
  let normalized := jsTrimL (stripBackticks (collapseWs text.data))
  if normalized.length ≤ len then ⟨normalized⟩
  else ⟨normalized.take len ++ ('.' :: '.' :: '.' :: [])⟩

/-! ## HTML escaping (`SidebarManager.escapeHtml`) -/

def chAmp : Char := Char.ofNat 38
def chLt : Char := Char.ofNat 60
def chGt : Char := Char.ofNat 62
def chQuot : Char := Char.ofNat 34
def chApos : Char := Char.ofNat 39

/-- The per-character action of
`text.replace(/[&<>"']/g, (m) => map[m])`. -/
def escapeChar (c : Char) : List Char :=
  if c = chAmp then ('&' :: 'a' :: 'm' :: 'p' :: ';' :: [])
  else if c = chLt then ('&' :: 'l' :: 't' :: ';' :: [])
  else if c = chGt then ('&' :: 'g' :: 't' :: ';' :: [])
  else if c = chQuot then ('&' :: 'q' :: 'u' :: 'o' :: 't' :: ';' :: [])
  else if c = chApos then ('&' :: '#' :: '0' :: '3' :: '9' :: ';' :: [])
  else [c]

/-- The method `SidebarManager.escapeHtml(text)`: the regex `/[&<>"']/g` matches
single characters, so the replacement acts independently on each
character in one pass. -/
def escapeHtml (text : String) : String :=
  ⟨(text.data.map escapeChar).flatten⟩

/-- Does `pat` occur at the head of `l`? -/
def startsWith : List Char → List Char → Bool
  | [], _ => true
  | _ :: _, [] => false
  | p :: ps, c :: cs => p = c && startsWith ps cs

/-- Standard entity decoder for the five entities `escapeChar` emits;
an `&` that does not begin an entity is kept literally. -/
def unescapeHtml : List Char → List Char
  | [] => []
  | c :: rest =>
    if c = chAmp then
      match rest with
      | 'a' :: 'm' :: 'p' :: ';' :: tl => chAmp :: unescapeHtml tl
      | 'l' :: 't' :: ';' :: tl => chLt :: unescapeHtml tl
      | 'g' :: 't' :: ';' :: tl => chGt :: unescapeHtml tl
      | 'q' :: 'u' :: 'o' :: 't' :: ';' :: tl => chQuot :: unescapeHtml tl
      | '#' :: '0' :: '3' :: '9' :: ';' :: tl => chApos :: unescapeHtml tl
      | other => c :: unescapeHtml other
    else c :: unescapeHtml rest

/-- Every ampersand in `l` begins one of the five entity forms. -/
def ampsEncoded : List Char → Bool
  | [] => true
  | c :: rest =>
    if c = chAmp then
      match rest with
      | 'a' :: 'm' :: 'p' :: ';' :: tl => ampsEncoded tl
      | 'l' :: 't' :: ';' :: tl => ampsEncoded tl
      | 'g' :: 't' :: ';' :: tl => ampsEncoded tl
      | 'q' :: 'u' :: 'o' :: 't' :: ';' :: tl => ampsEncoded tl
      | '#' :: '0' :: '3' :: '9' :: ';' :: tl => ampsEncoded tl
      | _ => false
    else ampsEncoded rest

/-! ## DOM abstraction

The extractor only touches the DOM through `document.querySelectorAll`
and `element.querySelector`/`element.textContent`, so a DOM snapshot is
modelled by those query functions.  Selector matching itself (CSS
semantics) is left abstract; invalid-selector exceptions are not
modelled (every query is total, mirroring the `try/catch` that merely
logs and moves on).
-/

/-- A DOM element: its `textContent` and its `querySelector` view
(first matching descendant per selector). -/
inductive Elem : Type
  | mk (ownText : String) (query : String → Option Elem)

def Elem.ownText : Elem → String
  | .mk t _ => t

def Elem.query : Elem → String → Option Elem
  | .mk _ q => q

/-- The document, as seen through `document.querySelectorAll`
(in document order). -/
structure Doc where
  queryAll : String → List Elem

/-! ## Platform detector (`platformDetector.js`) -/

/-- The `selectors` block of one platform's configuration.
`fallbackUserMessage` models the optional
`selectors.fallbackSelectors?.userMessage || []`. -/
structure Selectors where
  userMessage : String
  assistantMessage : String
  messageContent : String
  scrollContainer : String
  fallbackUserMessage : List String := []
  deriving DecidableEq, Repr

/-- One entry of `platformsConfig.platforms`, with its key.  The
configuration object is modelled as a list in registration order
(`Object.entries` iterates string keys in insertion order). -/
structure PlatformConfig where
  key : String
  name : String
  urls : List String
  selectors : Selectors
  deriving DecidableEq, Repr

/-- JS `s.includes(pat)`: is `pat` a contiguous substring of `s`? -/
def jsIncludes (s pat : String) : Bool :=
  go s.data
where
  go : List Char → Bool
    | [] => pat.data.isEmpty
    | l@(_ :: rest) => startsWith pat.data l || go rest

/-- Does some pattern in `p.urls` occur in `hostname`?  This is the
inner loop of `detectPlatform`. -/
def platformMatches (hostname : String) (p : PlatformConfig) : Bool :=
  p.urls.any (fun pat => jsIncludes hostname pat)

/-- The method `PlatformDetector.detectPlatform()`: scan the platform entries in
registration order and return the first whose any URL pattern is a
substring of the hostname (`currentUrl.includes(urlPattern)`); `none`
when no pattern matches. -/
def detectPlatform (platforms : List PlatformConfig) (hostname : String) :
    Option PlatformConfig :=
  platforms.find? (platformMatches hostname)

/-- The method `PlatformDetector.getDefaultPlatformsConfig()`: the built-in
fallback configuration, in registration order. -/
def defaultPlatforms : List PlatformConfig :=
  [ { key := "chatgpt", name := "ChatGPT",
      urls := ["chat.openai.com", "chatgpt.com"],
      selectors :=
        { userMessage := "[role=\"user\"]"
          assistantMessage := "[role=\"assistant\"]"
          messageContent := "div:first-child"
          scrollContainer := "main" } }
  , { key := "gemini", name := "Google Gemini",
      urls := ["gemini.google.com"],
      selectors :=
        { userMessage := "[data-role=\"user\"]"
          assistantMessage := "[data-role=\"assistant\"]"
          messageContent := ".message-content, [role=\"article\"]"
          scrollContainer := "body" } }
  , { key := "claude", name := "Anthropic Claude",
      urls := ["claude.ai"],
      selectors :=
        { userMessage := ".user-message"
          assistantMessage := ".assistant-message"
          messageContent := ".message-text, [role=\"article\"]"
          scrollContainer := "main" } }
  , { key := "deepseek", name := "DeepSeek",
      urls := ["chat.deepseek.com"],
      selectors :=
        { userMessage := "[data-sender=\"user\"]"
          assistantMessage := "[data-sender=\"assistant\"]"
          messageContent := ".ds-message-content, .message-content"
          scrollContainer := "body" } }
  , { key := "doubao", name := "字节豆包",
      urls := ["doubao.com"],
      selectors :=
        { userMessage := "[data-type=\"user\"]"
          assistantMessage := "[data-type=\"assistant\"]"
          messageContent := ".message-body, .message-content"
          scrollContainer := "body" } } ]

/-! ## Message extractor (`messageExtractor.js`) -/

/-- A selector argument as passed around in the JS code: either a
single selector string or an array of candidates. -/
inductive SelArg : Type
  | one (s : String)
  | many (ss : List String)

/-- The method `MessageExtractor.findElements(selectors)`.  For an array, return
the first selector's result that is non-empty, else `none` (JS
`null`); for a single string, return `querySelectorAll`'s (possibly
empty) list. -/
def findElements (doc : Doc) : SelArg → Option (List Elem)
  | .one s => some (doc.queryAll s)
  | .many ss => go ss
where
  go : List String → Option (List Elem)
    | [] => none
    | s :: rest =>
      let elements := doc.queryAll s
      if elements.length > 0 then some elements else go rest

/-- The selector array of a `SelArg`
(`Array.isArray(contentSelector) ? contentSelector : [contentSelector]`). -/
def SelArg.toList : SelArg → List String
  | .one s => [s]
  | .many ss => ss

/-- The method `MessageExtractor.extractText(element, contentSelector)`.  When a
content selector is given and matches somewhere in the *document*, the
first candidate that resolves to a descendant of `element` supplies the
text; otherwise the element's own text is used.  `none` models a
falsy (`undefined`/`null`/`""`) content selector. -/
def extractText (doc : Doc) (element : Elem) (contentSelector : Option SelArg) :
    String :=
  let textElement :=
    match contentSelector with
    | none => element
    | some cs =>
      match findElements doc cs with
      | some found =>
        if found.length > 0 then
          match cs.toList.findSome? (fun sel => element.query sel) with
          | some child => child
          | none => element
        else element
      | none => element
  jsTrim textElement.ownText

/-- One record of the extractor's message list. -/
structure MessageRecord where
  index : Nat
  userText : String
  userElement : Elem
  timestamp : Nat
  preview : String

/-- The extractor's mutable fields: `this.messages` and
`this.lastExtractTime` (milliseconds). -/
structure ExtractorState where
  messages : List MessageRecord
  lastExtractTime : Nat

/-- The body of the `forEach` in `extractMessagesForDeepSeek`: push a
record (numbered `messages.length`) when the container has a
`.fbb737a4` descendant with non-empty text. -/
def deepseekStep (now : Nat) (acc : List MessageRecord) (element : Elem) :
    List MessageRecord :=
  match element.query ".fbb737a4" with
  | some userContent =>
    let userText := jsTrim userContent.ownText
    if userText.length > 0 then
      acc ++ [{ index := acc.length, userText := userText,
                userElement := element, timestamp := now,
                preview := getPreview userText }]
    else acc
  | none => acc

/-- The method `MessageExtractor.extractMessagesForDeepSeek()`: scan
`.ds-message` containers, keep those with a `.fbb737a4` descendant and
non-empty text, numbering records by `messages.length` at push time.
Returns the result together with the updated state. -/
def extractMessagesForDeepSeek (doc : Doc) (now : Nat) (_st : ExtractorState) :
    List MessageRecord × ExtractorState :=
  let messageElements := doc.queryAll ".ds-message"
  let messages := messageElements.foldl (deepseekStep now) []
  (messages, { messages := messages, lastExtractTime := now })

/-- The content-selector argument the generic path passes to
`extractText`: the configured `messageContent` string, or `none` when
that string is falsy (empty). -/
def contentSelArg (p : PlatformConfig) : Option SelArg :=
  if p.selectors.messageContent.isEmpty then none
  else some (.one p.selectors.messageContent)

/-- The selector array the generic path queries for user messages:
`[platform.selectors.userMessage, ...fallbackSelectors?.userMessage]`. -/
def userSelectorList (p : PlatformConfig) : List String :=
  p.selectors.userMessage :: p.selectors.fallbackUserMessage

/-- The body of the `forEach` in the generic `extractMessages` path:
from the `(forEach index, element)` pair, build a record unless the
extracted text is empty. -/
def genericRecord (doc : Doc) (cs : Option SelArg) (now : Nat)
    (ie : Nat × Elem) : Option MessageRecord :=
  let userText := extractText doc ie.2 cs
  if userText.length > 0 then
    some { index := ie.1, userText := userText, userElement := ie.2,
           timestamp := now, preview := getPreview userText }
  else none

/-- The method `MessageExtractor.extractMessages()`.  Here `platform` is the detector's
`getPlatformConfig()` result; `now` is `Date.now()`.  Mirrors the
source: early return (no state change) when no platform is detected or
when the user-message selectors match nothing; DeepSeek takes the
override path; otherwise elements are numbered by their `forEach`
position and empty-text elements are skipped. -/
def extractMessages (doc : Doc) (now : Nat) (platform : Option PlatformConfig)
    (st : ExtractorState) : List MessageRecord × ExtractorState :=
  match platform with
  | none => ([], st)
  | some p =>
    if p.key = "deepseek" then extractMessagesForDeepSeek doc now st
    else
      match findElements doc (.many (userSelectorList p)) with
      | none => ([], st)
      | some userElements =>
        if userElements.length = 0 then ([], st)
        else
          let messages :=
            userElements.enum.filterMap (genericRecord doc (contentSelArg p) now)
          (messages, { messages := messages, lastExtractTime := now })

/-- The method `MessageExtractor.getMessageByIndex(index)`:
`this.messages[index] || null` with a JS (possibly negative) index. -/
def getMessageByIndex (st : ExtractorState) (index : Int) :
    Option MessageRecord :=
  if h : 0 ≤ index ∧ index.toNat < st.messages.length then
    some (st.messages.get ⟨index.toNat, h.2⟩)
  else none

/-- The live element count probed by `shouldRefresh()`: the DeepSeek
path counts `.ds-message .fbb737a4`; the generic path counts the
primary user-message selector's matches
(`findElements(selectors.userMessage)?.length || 0`). -/
def currentLiveCount (doc : Doc) (p : PlatformConfig) : Nat :=
  if p.key = "deepseek" then (doc.queryAll ".ds-message .fbb737a4").length
  else
    match findElements doc (.one p.selectors.userMessage) with
    | some es => es.length
    | none => 0

/-- The method `MessageExtractor.shouldRefresh()`: it is `false` without a platform;
otherwise true when more than 2000 ms have elapsed since the last
extraction or the live count differs from the cached record count. -/
def shouldRefresh (doc : Doc) (now : Nat) (platform : Option PlatformConfig)
    (st : ExtractorState) : Bool :=
  match platform with
  | none => false
  | some p =>
    let timeDiff := now - st.lastExtractTime
    let currentCount :=
      if p.key = "deepseek" then
        (doc.queryAll ".ds-message .fbb737a4").length
      else
        match findElements doc (.one p.selectors.userMessage) with
        | some es => es.length
        | none => 0
    decide (timeDiff > 2000) || decide (currentCount ≠ st.messages.length)

/-! ## Sidebar manager (`SidebarManager` in the sidebar module)

The sidebar's own DOM is modelled by the pieces the manager mutates:
the `collapsed` class, the toggle-button icon text, and the active list
item.  The rendered message-list HTML is not modelled (`updateSidebar`
is outside the claims); storage writes (`chrome.storage.local.set`)
are returned as an explicit effect list; the 3-second highlight-removal
timer and the 500 ms debounce timer are not modelled.
-/

structure SidebarDom where
  collapsed : Bool
  toggleIcon : String
  activeIndex : Option Nat
  deriving DecidableEq, Repr

/-- The manager's mutable fields.  `listenersAttached` counts calls to
`attachEventListeners`. -/
structure SidebarState where
  sidebarElement : Option SidebarDom
  isVisible : Bool
  highlightedElement : Option Elem
  listenersAttached : Nat

/-- The state set up by the constructor. -/
def initialSidebarState : SidebarState :=
  { sidebarElement := none, isVisible := true,
    highlightedElement := none, listenersAttached := 0 }

/-- The sidebar element as first built by `createSidebar` (expanded,
toggle icon `−`, no active item). -/
def freshSidebarDom : SidebarDom :=
  { collapsed := false, toggleIcon := "−", activeIndex := none }

/-- The method `SidebarManager.createSidebar()`: return the existing element if
present; otherwise build the scaffold, install it, and attach the
event listeners. -/
def createSidebar (st : SidebarState) : SidebarDom × SidebarState :=
  match st.sidebarElement with
  | some sb => (sb, st)
  | none =>
    (freshSidebarDom,
     { st with sidebarElement := some freshSidebarDom,
               listenersAttached := st.listenersAttached + 1 })

/-- A storage write `chrome.storage.local.set({ key: value })`. -/
abbrev StorageWrite := String × Bool

/-- The method `SidebarManager.toggleSidebar()`: no-op without a sidebar element;
otherwise flip `isVisible`, toggle the `collapsed` class, set the
icon, and persist `sidebarVisible`. -/
def toggleSidebar (st : SidebarState) : SidebarState × List StorageWrite :=
  match st.sidebarElement with
  | none => (st, [])
  | some sb =>
    let vis := !st.isVisible
    let sb' := { sb with collapsed := !vis,
                         toggleIcon := if vis then "−" else "+" }
    ({ st with isVisible := vis, sidebarElement := some sb' },
     [("sidebarVisible", vis)])

/-- The method `SidebarManager.show()`: create the sidebar if absent, then mark
visible and drop the `collapsed` class.  No storage write. -/
def showSidebar (st : SidebarState) : SidebarState × List StorageWrite :=
  let st1 := if st.sidebarElement.isNone then (createSidebar st).2 else st
  match st1.sidebarElement with
  | none => (st1, [])
  | some sb =>
    ({ st1 with isVisible := true,
                sidebarElement := some { sb with collapsed := false } }, [])

/-- The method `SidebarManager.hide()`: no-op without a sidebar element; otherwise
mark invisible and add the `collapsed` class.  No storage write. -/
def hideSidebar (st : SidebarState) : SidebarState × List StorageWrite :=
  match st.sidebarElement with
  | none => (st, [])
  | some sb =>
    ({ st with isVisible := false,
               sidebarElement := some { sb with collapsed := true } }, [])

/-- Observable page-side actions of `scrollToMessage`. -/
inductive NavEffect : Type
  | highlightRemove (target : Elem)
  | pageScroll (target : Elem)
  | highlightAdd (target : Elem)
  | sidebarItemScroll (index : Nat)

/-- The method `SidebarManager.scrollToMessage(index)`: look the record up in the
extractor's cache; if absent, log a warning and do nothing.  Otherwise
un-highlight the previous element, smooth-scroll the target to the
viewport center, highlight it, remember it, and mark the sidebar row
active (`updateActiveItem`). -/
def scrollToMessage (ex : ExtractorState) (st : SidebarState) (index : Int) :
    SidebarState × List NavEffect :=
  match getMessageByIndex ex index with
  | none => (st, [])
  | some message =>
    let removeFx :=
      match st.highlightedElement with
      | some el => [NavEffect.highlightRemove el]
      | none => []
    ({ st with highlightedElement := some message.userElement,
               sidebarElement := st.sidebarElement.map
                 (fun sb => { sb with activeIndex := some index.toNat }) },
     removeFx ++ [NavEffect.pageScroll message.userElement,
                  NavEffect.highlightAdd message.userElement,
                  NavEffect.sidebarItemScroll index.toNat])

/-! ## Derived predicates used in the statements -/

/-- An element of the generic path qualifies when the text extracted
for it is non-empty. -/
def genericQualifies (doc : Doc) (cs : Option SelArg) (el : Elem) : Bool :=
  0 < (extractText doc el cs).length

/-- A DeepSeek container qualifies when it has a `.fbb737a4` descendant
with non-empty trimmed text. -/
def deepseekQualifies (el : Elem) : Bool :=
  match el.query ".fbb737a4" with
  | some userContent => 0 < (jsTrim userContent.ownText).length
  | none => false

/-- Checks that no two adjacent characters are both whitespace, i.e.
that whitespace runs are collapsed. -/
def noAdjacentWs : List Char → Bool
  | [] => true
  | [_] => true
  | a :: b :: rest => !(isWs a && isWs b) && noAdjacentWs (b :: rest)

/-! ## Concrete fixtures for witnesses and counterexamples -/

/-- The first entry of `defaultPlatforms` (the ChatGPT platform). -/
def chatgptPlatform : PlatformConfig :=
  { key := "chatgpt", name := "ChatGPT",
    urls := ["chat.openai.com", "chatgpt.com"],
    selectors :=
      { userMessage := "[role=\"user\"]"
        assistantMessage := "[role=\"assistant\"]"
        messageContent := "div:first-child"
        scrollContainer := "main" } }

/-- A document where every query matches nothing. -/
def emptyDoc : Doc := ⟨fun _ => []⟩

/-- A leaf element with the given text and no descendants. -/
def leafElem (text : String) : Elem := .mk text (fun _ => none)

/-- A document whose `[role="user"]` query yields one element with
empty text followed by one with text `"hi"`. -/
def docEmptyThenHi : Doc :=
  ⟨fun s => if s = "[role=\"user\"]" then [leafElem "", leafElem "hi"] else []⟩

/-- A document whose `[role="user"]` query yields two elements with
non-empty text. -/
def docTwoGood : Doc :=
  ⟨fun s => if s = "[role=\"user\"]" then [leafElem "hi", leafElem "there"]
            else []⟩

/-- A document with three `[role="user"]` elements, for the
`needsRefresh` scenario. -/
def docThreeUsers : Doc :=
  ⟨fun s => if s = "[role=\"user\"]" then
              [leafElem "a", leafElem "b", leafElem "c"]
            else []⟩

/-- An extractor state with an empty cache. -/
def emptyExtractorState : ExtractorState := { messages := [], lastExtractTime := 0 }

/-- A record as a previous extraction pass would have cached it. -/
def staleRecord : MessageRecord :=
  { index := 0, userText := "old", userElement := leafElem "old",
    timestamp := 0, preview := "old" }

/-- An extractor state still holding one record from a previous pass. -/
def staleState : ExtractorState := { messages := [staleRecord], lastExtractTime := 0 }

/-- An extractor state with two cached records, for the `needsRefresh`
scenario (live 3 vs cached 2). -/
def twoCachedState : ExtractorState :=
  { messages := [staleRecord, { staleRecord with index := 1 }],
    lastExtractTime := 0 }

/-- The manager state right after `createSidebar()` succeeded once. -/
def builtSidebarState : SidebarState :=
  { sidebarElement := some freshSidebarDom, isVisible := true,
    highlightedElement := none, listenersAttached := 1 }

/-! ## Lemmas and claim theorems -/

set_option maxHeartbeats 1600000 in
lemma unescapeHtml_cons_of_ne {c : Char} (l : List Char) (h : ¬ c = chAmp) :
    unescapeHtml (c :: l) = c :: unescapeHtml l := by
  rw [unescapeHtml.eq_def]
  dsimp only
  rw [if_neg h]

set_option maxHeartbeats 1600000 in
lemma ampsEncoded_cons_of_ne {c : Char} (l : List Char) (h : ¬ c = chAmp) :
    ampsEncoded (c :: l) = ampsEncoded l := by
  rw [ampsEncoded.eq_def]
  dsimp only
  rw [if_neg h]

set_option maxHeartbeats 1600000 in
lemma unescape_escapeChar (c : Char) (l : List Char) :
    unescapeHtml (escapeChar c ++ l) = c :: unescapeHtml l := by
  by_cases h1 : c = chAmp
  · subst h1; rfl
  · by_cases h2 : c = chLt
    · subst h2; rfl
    · by_cases h3 : c = chGt
      · subst h3; rfl
      · by_cases h4 : c = chQuot
        · subst h4; rfl
        · by_cases h5 : c = chApos
          · subst h5; rfl
          · simp only [escapeChar, if_neg h1, if_neg h2, if_neg h3,
              if_neg h4, if_neg h5, List.singleton_append]
            exact unescapeHtml_cons_of_ne l h1

set_option maxHeartbeats 1600000 in
lemma ampsEncoded_escapeChar (c : Char) (l : List Char) :
    ampsEncoded (escapeChar c ++ l) = ampsEncoded l := by
  by_cases h1 : c = chAmp
  · subst h1; rfl
  · by_cases h2 : c = chLt
    · subst h2; rfl
    · by_cases h3 : c = chGt
      · subst h3; rfl
      · by_cases h4 : c = chQuot
        · subst h4; rfl
        · by_cases h5 : c = chApos
          · subst h5; rfl
          · simp only [escapeChar, if_neg h1, if_neg h2, if_neg h3,
              if_neg h4, if_neg h5, List.singleton_append]
            exact ampsEncoded_cons_of_ne l h1

lemma mem_escapeChar_not_reserved {c d : Char} (hd : d ∈ escapeChar c) :
    d ≠ chLt ∧ d ≠ chGt ∧ d ≠ chQuot ∧ d ≠ chApos := by
  by_cases h1 : c = chAmp
  · subst h1
    rw [show escapeChar chAmp = ('&' :: 'a' :: 'm' :: 'p' :: ';' :: []) from rfl] at hd
    simp only [List.mem_cons, List.not_mem_nil, or_false] at hd
    rcases hd with rfl | rfl | rfl | rfl | rfl <;> decide
  · by_cases h2 : c = chLt
    · subst h2
      rw [show escapeChar chLt = ('&' :: 'l' :: 't' :: ';' :: []) from rfl] at hd
      simp only [List.mem_cons, List.not_mem_nil, or_false] at hd
      rcases hd with rfl | rfl | rfl | rfl <;> decide
    · by_cases h3 : c = chGt
      · subst h3
        rw [show escapeChar chGt = ('&' :: 'g' :: 't' :: ';' :: []) from rfl] at hd
        simp only [List.mem_cons, List.not_mem_nil, or_false] at hd
        rcases hd with rfl | rfl | rfl | rfl <;> decide
      · by_cases h4 : c = chQuot
        · subst h4
          rw [show escapeChar chQuot
                = ('&' :: 'q' :: 'u' :: 'o' :: 't' :: ';' :: []) from rfl] at hd
          simp only [List.mem_cons, List.not_mem_nil, or_false] at hd
          rcases hd with rfl | rfl | rfl | rfl | rfl | rfl <;> decide
        · by_cases h5 : c = chApos
          · subst h5
            rw [show escapeChar chApos
                  = ('&' :: '#' :: '0' :: '3' :: '9' :: ';' :: []) from rfl] at hd
            simp only [List.mem_cons, List.not_mem_nil, or_false] at hd
            rcases hd with rfl | rfl | rfl | rfl | rfl | rfl <;> decide
          · simp only [escapeChar, if_neg h1, if_neg h2, if_neg h3,
              if_neg h4, if_neg h5, List.mem_singleton] at hd
            subst hd
            exact ⟨h2, h3, h4, h5⟩

lemma escapeList_spec (l : List Char) :
    (∀ d ∈ (l.map escapeChar).flatten,
        d ≠ chLt ∧ d ≠ chGt ∧ d ≠ chQuot ∧ d ≠ chApos)
    ∧ ampsEncoded ((l.map escapeChar).flatten) = true
    ∧ unescapeHtml ((l.map escapeChar).flatten) = l := by
  induction l with
  | nil => exact ⟨by simp, rfl, rfl⟩
  | cons c cs ih =>
    rw [List.map_cons, List.flatten_cons]
    refine ⟨?_, ?_, ?_⟩
    · intro d hd
      rcases List.mem_append.1 hd with h | h
      · exact mem_escapeChar_not_reserved h
      · exact ih.1 d h
    · rw [ampsEncoded_escapeChar]; exact ih.2.1
    · rw [unescape_escapeChar, ih.2.2]

/-- C4: for every input string, `escapeHtml` (the HTML-escaping
function used when rendering the sidebar) produces output with no
literal `<`, `>`, `"` or `'` at all, in which every `&` begins one of
the five entity forms, and which decodes back to the exact input (so
nothing is double-escaped and no reserved character is left literal). -/
theorem escapeHtml_reserved_only_in_entities (s : String) :
    (∀ d ∈ (escapeHtml s).data,
        d ≠ chLt ∧ d ≠ chGt ∧ d ≠ chQuot ∧ d ≠ chApos)
    ∧ ampsEncoded (escapeHtml s).data = true
    ∧ unescapeHtml (escapeHtml s).data = s.data :=
  escapeList_spec s.data

/-- Witness for C4: the escaped form of `<script>&"'` is fully
entity-encoded and decodes back to the input. -/
theorem escapeHtml_reserved_only_in_entities_witness :
    ampsEncoded (escapeHtml "<script>&\"'").data = true
    ∧ unescapeHtml (escapeHtml "<script>&\"'").data = "<script>&\"'".data :=
  ⟨(escapeHtml_reserved_only_in_entities "<script>&\"'").2.1,
   (escapeHtml_reserved_only_in_entities "<script>&\"'").2.2⟩

lemma mem_jsTrimL {d : Char} {l : List Char} (h : d ∈ jsTrimL l) : d ∈ l := by
  unfold jsTrimL at h
  rw [List.mem_reverse] at h
  have h2 := (List.dropWhile_sublist isWs).subset h
  rw [List.mem_reverse] at h2
  exact (List.dropWhile_sublist isWs).subset h2

lemma mem_stripBackticks {d : Char} {l : List Char}
    (h : d ∈ stripBackticks l) : d ≠ chBacktick := by
  have := (List.mem_filter.1 h).2
  simpa using this

/-- C7 (amended): `getPreview(text, 60)` returns at most 63 characters
and the result contains no backtick; whitespace runs of the *input*
are collapsed before backticks are removed, so the output may contain
adjacent spaces where a backtick stood between two whitespace runs
(see the counterexample). -/
theorem getPreview_len_le_and_backtick_free (text : String) :
    (getPreview text 60).length ≤ 63
    ∧ ∀ d ∈ (getPreview text 60).data, d ≠ chBacktick := by
  unfold getPreview
  by_cases h : (jsTrimL (stripBackticks (collapseWs text.data))).length ≤ 60
  · rw [if_pos h]
    refine ⟨?_, ?_⟩
    · show (jsTrimL (stripBackticks (collapseWs text.data))).length ≤ 63
      omega
    · intro d hd
      exact mem_stripBackticks (mem_jsTrimL hd)
  · rw [if_neg h]
    refine ⟨?_, ?_⟩
    · show ((jsTrimL (stripBackticks (collapseWs text.data))).take 60
          ++ ('.' :: '.' :: '.' :: [])).length ≤ 63
      rw [List.length_append, List.length_take]
      simp
    · intro d hd
      rcases List.mem_append.1 hd with h1 | h1
      · exact mem_stripBackticks (mem_jsTrimL (List.mem_of_mem_take h1))
      · rcases List.mem_cons.1 h1 with rfl | h1
        · decide
        · rcases List.mem_cons.1 h1 with rfl | h1
          · decide
          · rcases List.mem_cons.1 h1 with rfl | h1
            · decide
            · simp at h1

/-- Witness for C7 (amended): a long messy input previews to at most
63 characters. -/
theorem getPreview_len_le_and_backtick_free_witness :
    (getPreview "   hello `world`   how   are   you" 60).length ≤ 63 :=
  (getPreview_len_le_and_backtick_free "   hello `world`   how   are   you").1

/-- C7 counterexample: on input `"a ` b"` the preview is `"a  b"` —
the backtick is stripped after whitespace collapsing, leaving two
adjacent spaces, so the output does not have all whitespace runs
collapsed to single spaces as the claim states. -/
theorem getPreview_counterexample :
    getPreview "a ` b" 60 = "a  b"
    ∧ noAdjacentWs (getPreview "a ` b" 60).data = false := by
  exact ⟨by decide, by decide⟩

lemma find?_eq_some_first {α : Type} (p : α → Bool) :
    ∀ (l : List α) (a : α), l.find? p = some a →
      p a = true ∧ ∃ l1 l2, l = l1 ++ a :: l2 ∧ ∀ b ∈ l1, p b = false := by
  intro l
  induction l with
  | nil => intro a h; simp [List.find?] at h
  | cons x xs ih =>
    intro a h
    by_cases hx : p x = true
    · rw [List.find?_cons_of_pos _ hx] at h
      cases h
      exact ⟨hx, [], xs, rfl, by simp⟩
    · rw [List.find?_cons_of_neg _ hx] at h
      obtain ⟨hp, l1, l2, heq, hall⟩ := ih a h
      subst heq
      refine ⟨hp, x :: l1, l2, rfl, ?_⟩
      intro b hb
      rcases List.mem_cons.1 hb with rfl | hb
      · exact (Bool.not_eq_true _) ▸ hx
      · exact hall b hb

/-- C5: `detectPlatform` scans the platform definitions in
registration order and returns the first whose some URL pattern is a
substring of the hostname; when it returns a platform, that platform
matches and everything registered before it does not; it returns
`none` exactly when no configured pattern matches the hostname. -/
theorem detectPlatform_first_substring_match
    (ps : List PlatformConfig) (h : String) :
    (∀ p, detectPlatform ps h = some p →
        p ∈ ps ∧ platformMatches h p = true
        ∧ ∃ l1 l2, ps = l1 ++ p :: l2 ∧ ∀ q ∈ l1, platformMatches h q = false)
    ∧ (detectPlatform ps h = none ↔ ∀ p ∈ ps, platformMatches h p = false) := by
  constructor
  · intro p hp
    obtain ⟨hm, l1, l2, heq, hall⟩ := find?_eq_some_first _ ps p hp
    exact ⟨List.mem_of_find?_eq_some hp, hm, l1, l2, heq, hall⟩
  · unfold detectPlatform
    rw [List.find?_eq_none]
    simp [Bool.not_eq_true]

/-- Witness for C5: on the default configuration, `"chatgpt.com"` is
matched by the first (ChatGPT) entry, and an unmatched hostname
detects to `none`. -/
theorem detectPlatform_first_substring_match_witness :
    (chatgptPlatform ∈ defaultPlatforms
     ∧ platformMatches "chatgpt.com" chatgptPlatform = true
     ∧ ∃ l1 l2, defaultPlatforms = l1 ++ chatgptPlatform :: l2
          ∧ ∀ q ∈ l1, platformMatches "chatgpt.com" q = false)
    ∧ detectPlatform defaultPlatforms "example.org" = none :=
  ⟨(detectPlatform_first_substring_match defaultPlatforms "chatgpt.com").1
      chatgptPlatform (by decide),
   (detectPlatform_first_substring_match defaultPlatforms "example.org").2.mpr
      (by decide)⟩

/-- C6 (amended): provided a platform is detected, `shouldRefresh`
returns true whenever more than 2 seconds have elapsed since the last
extraction or the live count of matching user-message elements differs
from the cached record count; with no platform detected it returns
false even when those conditions hold. -/
theorem shouldRefresh_true_of_elapsed_or_count (doc : Doc) (now : Nat)
    (p : PlatformConfig) (st : ExtractorState) :
    ((2000 < now - st.lastExtractTime
        ∨ currentLiveCount doc p ≠ st.messages.length) →
      shouldRefresh doc now (some p) st = true)
    ∧ shouldRefresh doc now none st = false := by
  constructor
  · intro h
    simp only [shouldRefresh, currentLiveCount] at *
    rcases h with h | h
    · simp [h]
    · simp [h]
  · rfl

/-- Witness for C6: live count 3, cached count 2, only 1 second after
the last extraction — `shouldRefresh` is true. -/
theorem shouldRefresh_true_of_elapsed_or_count_witness :
    (2000 < (1000 : Nat) - twoCachedState.lastExtractTime
       ∨ currentLiveCount docThreeUsers chatgptPlatform
           ≠ twoCachedState.messages.length)
    ∧ shouldRefresh docThreeUsers 1000 (some chatgptPlatform) twoCachedState
        = true :=
  ⟨Or.inr (by decide),
   (shouldRefresh_true_of_elapsed_or_count docThreeUsers 1000 chatgptPlatform
      twoCachedState).1 (Or.inr (by decide))⟩

/-- C6 counterexample: with no platform detected, `shouldRefresh`
returns false even though far more than 2 seconds have elapsed since
the last extraction, contradicting the claim read over every state. -/
theorem shouldRefresh_counterexample :
    2000 < (5000 : Nat) - emptyExtractorState.lastExtractTime
    ∧ shouldRefresh emptyDoc 5000 none emptyExtractorState = false :=
  ⟨by decide, rfl⟩

lemma findElements_go_pos (doc : Doc) :
    ∀ (ss : List String) (es : List Elem),
      findElements.go doc ss = some es → 0 < es.length := by
  intro ss
  induction ss with
  | nil => intro es h; simp [findElements.go] at h
  | cons s rest ih =>
    intro es h
    rw [findElements.go] at h
    split at h
    · cases h; assumption
    · exact ih es h

lemma genericRecord_pos (doc : Doc) (cs : Option SelArg) (now n : Nat)
    (el : Elem) (h : 0 < (extractText doc el cs).length) :
    genericRecord doc cs now (n, el)
      = some { index := n, userText := extractText doc el cs,
               userElement := el, timestamp := now,
               preview := getPreview (extractText doc el cs) } := by
  simp [genericRecord, h]

lemma genericRecord_neg (doc : Doc) (cs : Option SelArg) (now n : Nat)
    (el : Elem) (h : ¬ 0 < (extractText doc el cs).length) :
    genericRecord doc cs now (n, el) = none := by
  simp [genericRecord, h]

lemma genericRecord_enumFrom_length (doc : Doc) (cs : Option SelArg)
    (now : Nat) :
    ∀ (l : List Elem) (n : Nat),
      ((List.enumFrom n l).filterMap (genericRecord doc cs now)).length
        = (l.filter (genericQualifies doc cs)).length := by
  intro l
  induction l with
  | nil => intro n; rfl
  | cons a l ih =>
    intro n
    rw [show List.enumFrom n (a :: l) = (n, a) :: List.enumFrom (n + 1) l
          from rfl]
    by_cases h : 0 < (extractText doc a cs).length
    · rw [List.filterMap_cons_some (genericRecord_pos doc cs now n a h),
          List.filter_cons_of_pos (by simp [genericQualifies, h])]
      simp [ih (n + 1)]
    · rw [List.filterMap_cons_none (genericRecord_neg doc cs now n a h),
          List.filter_cons_of_neg (by simp [genericQualifies, h])]
      exact ih (n + 1)

lemma deepseekStep_length (now : Nat) :
    ∀ (l : List Elem) (acc : List MessageRecord),
      (l.foldl (deepseekStep now) acc).length
        = acc.length + (l.filter deepseekQualifies).length := by
  intro l
  induction l with
  | nil => intro acc; simp
  | cons a l ih =>
    intro acc
    rw [List.foldl_cons, ih]
    unfold deepseekStep deepseekQualifies
    cases hq : a.query ".fbb737a4" with
    | none => rw [List.filter_cons_of_neg (by simp [hq])]
    | some uc =>
      by_cases ht : 0 < (jsTrim uc.ownText).length
      · rw [List.filter_cons_of_pos (by simp [hq, ht])]
        simp [ht]
        omega
      · rw [List.filter_cons_of_neg (by simp [hq, ht])]
        simp [ht]

/-- C10: calling `extractMessages` with no platform detected, or with
user-message selectors that match nothing on the generic path, returns
the empty list and leaves the cached message list and the
last-extraction timestamp exactly as they were. -/
theorem extractMessages_empty_leaves_state (doc : Doc) (now : Nat)
    (st : ExtractorState) :
    extractMessages doc now none st = ([], st)
    ∧ ∀ p, p.key ≠ "deepseek" →
        findElements doc (.many (userSelectorList p)) = none →
        extractMessages doc now (some p) st = ([], st) := by
  refine ⟨rfl, ?_⟩
  intro p hk hf
  simp [extractMessages, hk, hf]

/-- Witness for C10: on an empty document the ChatGPT selectors match
nothing, and a state holding a stale record is returned untouched. -/
theorem extractMessages_empty_leaves_state_witness :
    chatgptPlatform.key ≠ "deepseek"
    ∧ findElements emptyDoc (.many (userSelectorList chatgptPlatform)) = none
    ∧ extractMessages emptyDoc 7 none staleState = ([], staleState)
    ∧ extractMessages emptyDoc 7 (some chatgptPlatform) staleState
        = ([], staleState) :=
  ⟨by decide, rfl,
   (extractMessages_empty_leaves_state emptyDoc 7 staleState).1,
   (extractMessages_empty_leaves_state emptyDoc 7 staleState).2
      chatgptPlatform (by decide) rfl⟩

/-- C1 (amended): an extraction pass replaces the stored collection
wholesale — and its record count equals the live count of qualifying
elements — whenever the user-message selectors match at least one
element (and always on the DeepSeek path); but on the generic path,
when the selectors match zero elements, `extract()` returns an empty
list while leaving the stored collection and timestamp untouched, so
records of a previous pass remain cached in that case. -/
theorem extractMessages_wholesale_or_stale (doc : Doc) (now : Nat)
    (p : PlatformConfig) (st : ExtractorState) :
    (∀ es, p.key ≠ "deepseek" →
        findElements doc (.many (userSelectorList p)) = some es →
        (extractMessages doc now (some p) st).2.messages
            = (extractMessages doc now (some p) st).1
        ∧ (extractMessages doc now (some p) st).2.messages.length
            = (es.filter (genericQualifies doc (contentSelArg p))).length
        ∧ (extractMessages doc now (some p) st).2.lastExtractTime = now)
    ∧ (p.key = "deepseek" →
        (extractMessages doc now (some p) st).2.messages
            = (extractMessages doc now (some p) st).1
        ∧ (extractMessages doc now (some p) st).2.messages.length
            = ((doc.queryAll ".ds-message").filter deepseekQualifies).length
        ∧ (extractMessages doc now (some p) st).2.lastExtractTime = now)
    ∧ (p.key ≠ "deepseek" →
        findElements doc (.many (userSelectorList p)) = none →
        extractMessages doc now (some p) st = ([], st)) := by
  refine ⟨?_, ?_, ?_⟩
  · intro es hk hf
    have hpos : 0 < es.length :=
      findElements_go_pos doc (userSelectorList p) es hf
    simp only [extractMessages]
    rw [if_neg hk, hf]
    dsimp only
    rw [if_neg (by omega)]
    refine ⟨rfl, ?_, rfl⟩
    show (List.filterMap (genericRecord doc (contentSelArg p) now)
        (List.enumFrom 0 es)).length = _
    exact genericRecord_enumFrom_length doc (contentSelArg p) now es 0
  · intro hk
    simp only [extractMessages]
    rw [if_pos hk]
    refine ⟨rfl, ?_, rfl⟩
    show ((doc.queryAll ".ds-message").foldl (deepseekStep now) []).length = _
    rw [deepseekStep_length now]
    simp
  · intro hk hf
    simp [extractMessages, hk, hf]

/-- Witness for C1 (amended): on a document with two non-empty user
messages, extraction replaces the cache with both records and stamps
the time. -/
theorem extractMessages_wholesale_or_stale_witness :
    chatgptPlatform.key ≠ "deepseek"
    ∧ findElements docTwoGood (.many (userSelectorList chatgptPlatform))
        = some [leafElem "hi", leafElem "there"]
    ∧ ((extractMessages docTwoGood 5 (some chatgptPlatform)
          emptyExtractorState).2.messages
        = (extractMessages docTwoGood 5 (some chatgptPlatform)
            emptyExtractorState).1
      ∧ (extractMessages docTwoGood 5 (some chatgptPlatform)
          emptyExtractorState).2.messages.length
        = ([leafElem "hi", leafElem "there"].filter
            (genericQualifies docTwoGood (contentSelArg chatgptPlatform))).length
      ∧ (extractMessages docTwoGood 5 (some chatgptPlatform)
          emptyExtractorState).2.lastExtractTime = 5) :=
  ⟨by decide, rfl,
   (extractMessages_wholesale_or_stale docTwoGood 5 chatgptPlatform
      emptyExtractorState).1 [leafElem "hi", leafElem "there"] (by decide) rfl⟩

/-- C1 counterexample: after all user-message elements disappear (live
count zero on the generic path), re-running `extract()` returns the
empty list but the stored collection still holds the record of the
previous pass, contradicting the claim that no stale record remains
(in particular when the new live count is zero). -/
theorem extractMessages_stale_counterexample :
    (emptyDoc.queryAll chatgptPlatform.selectors.userMessage).length = 0
    ∧ (extractMessages emptyDoc 9000 (some chatgptPlatform) staleState).1 = []
    ∧ (extractMessages emptyDoc 9000 (some chatgptPlatform)
        staleState).2.messages.length = 1 :=
  ⟨rfl, rfl, rfl⟩

lemma genericRecord_enumFrom_indices (doc : Doc) (cs : Option SelArg)
    (now : Nat) :
    ∀ (l : List Elem) (n : Nat),
      (∀ el ∈ l, 0 < (extractText doc el cs).length) →
      ((List.enumFrom n l).filterMap (genericRecord doc cs now)).map
          (fun r => r.index) = List.range' n l.length := by
  intro l
  induction l with
  | nil => intro n _; rfl
  | cons a l ih =>
    intro n hall
    have ha := hall a (List.mem_cons_self a l)
    rw [show List.enumFrom n (a :: l) = (n, a) :: List.enumFrom (n + 1) l
          from rfl,
        List.filterMap_cons_some (genericRecord_pos doc cs now n a ha),
        List.map_cons,
        ih (n + 1) (fun el hel => hall el (List.mem_cons_of_mem a hel))]
    rfl

lemma deepseekStep_indices (now : Nat) :
    ∀ (l : List Elem) (acc : List MessageRecord),
      acc.map (fun r => r.index) = List.range acc.length →
      (l.foldl (deepseekStep now) acc).map (fun r => r.index)
        = List.range (l.foldl (deepseekStep now) acc).length := by
  intro l
  induction l with
  | nil => intro acc h; exact h
  | cons a l ih =>
    intro acc h
    rw [List.foldl_cons]
    apply ih
    simp only [deepseekStep]
    cases hq : a.query ".fbb737a4" with
    | none => exact h
    | some uc =>
      dsimp only
      by_cases ht : (jsTrim uc.ownText).length > 0
      · rw [if_pos ht, List.map_append, h, List.length_append]
        simp [List.range_succ]
      · rw [if_neg ht]
        exact h

/-- C2 (amended): on the generic path a record's `index` is its
element's position among the matched elements, so when every matched
element has non-empty text the pass yields exactly one record per
element with indices `0..N-1` in document order; on the DeepSeek path
indices are always dense `0..count-1`.  (When an empty-text element
precedes a non-empty one on the generic path, indices keep gaps — see
the counterexample.) -/
theorem extractMessages_indices_spec (doc : Doc) (now : Nat)
    (p : PlatformConfig) (st : ExtractorState) :
    (∀ es, p.key ≠ "deepseek" →
        findElements doc (.many (userSelectorList p)) = some es →
        (∀ el ∈ es, 0 < (extractText doc el (contentSelArg p)).length) →
        (extractMessages doc now (some p) st).1.map (fun r => r.index)
            = List.range es.length
        ∧ (extractMessages doc now (some p) st).1.length = es.length)
    ∧ (extractMessagesForDeepSeek doc now st).1.map (fun r => r.index)
        = List.range (extractMessagesForDeepSeek doc now st).1.length := by
  constructor
  · intro es hk hf hall
    have hpos : 0 < es.length :=
      findElements_go_pos doc (userSelectorList p) es hf
    simp only [extractMessages]
    rw [if_neg hk, hf]
    dsimp only
    rw [if_neg (by omega)]
    constructor
    · show (List.filterMap (genericRecord doc (contentSelArg p) now)
          (List.enumFrom 0 es)).map (fun r => r.index) = _
      rw [genericRecord_enumFrom_indices doc (contentSelArg p) now es 0 hall,
          List.range_eq_range']
    · show (List.filterMap (genericRecord doc (contentSelArg p) now)
          (List.enumFrom 0 es)).length = _
      rw [genericRecord_enumFrom_length doc (contentSelArg p) now es 0,
          List.filter_eq_self.mpr]
      intro a ha
      simp [genericQualifies, hall a ha]
  · exact deepseekStep_indices now (doc.queryAll ".ds-message") [] rfl

/-- Witness for C2 (amended): two non-empty user messages extract to
records with indices `[0, 1]`. -/
theorem extractMessages_indices_spec_witness :
    chatgptPlatform.key ≠ "deepseek"
    ∧ findElements docTwoGood (.many (userSelectorList chatgptPlatform))
        = some [leafElem "hi", leafElem "there"]
    ∧ (∀ el ∈ [leafElem "hi", leafElem "there"],
        0 < (extractText docTwoGood el (contentSelArg chatgptPlatform)).length)
    ∧ (extractMessages docTwoGood 5 (some chatgptPlatform)
          emptyExtractorState).1.map (fun r => r.index) = List.range 2
    ∧ (extractMessages docTwoGood 5 (some chatgptPlatform)
          emptyExtractorState).1.length = 2 :=
  ⟨by decide, rfl, by decide,
   ((extractMessages_indices_spec docTwoGood 5 chatgptPlatform
      emptyExtractorState).1 [leafElem "hi", leafElem "there"]
      (by decide) rfl (by decide)).1,
   ((extractMessages_indices_spec docTwoGood 5 chatgptPlatform
      emptyExtractorState).1 [leafElem "hi", leafElem "there"]
      (by decide) rfl (by decide)).2⟩

/-- C2 counterexample: with an empty-text user element followed by a
non-empty one, the pass yields one record whose `index` is 1, not the
dense `0..count-1` the claim states — the `forEach` position survives
the skip. -/
theorem extractMessages_index_gap_counterexample :
    (extractMessages docEmptyThenHi 1 (some chatgptPlatform)
        emptyExtractorState).1.map (fun r => r.index) = [1]
    ∧ (extractMessages docEmptyThenHi 1 (some chatgptPlatform)
        emptyExtractorState).1.length = 1 :=
  ⟨rfl, rfl⟩

/-- C8: for an index with no matching cached record — in particular
any negative or out-of-range index — `scrollToMessage` looks up
nothing, and apart from the logged warning it is a no-op: the manager
state (sidebar DOM and tracked highlight) is returned unchanged and no
scroll or highlight effect is emitted. -/
theorem scrollToMessage_noop_on_missing (ex : ExtractorState)
    (st : SidebarState) (i : Int)
    (h : i < 0 ∨ (ex.messages.length : Int) ≤ i) :
    getMessageByIndex ex i = none ∧ scrollToMessage ex st i = (st, []) := by
  have hn : getMessageByIndex ex i = none := by
    unfold getMessageByIndex
    rw [dif_neg]
    rintro ⟨h0, hlt⟩
    rcases h with h | h <;> omega
  exact ⟨hn, by simp [scrollToMessage, hn]⟩

/-- Witness for C8: index `-1` against an empty cache is a no-op. -/
theorem scrollToMessage_noop_on_missing_witness :
    ((-1 : Int) < 0 ∨ ((emptyExtractorState.messages.length : Int) ≤ -1))
    ∧ getMessageByIndex emptyExtractorState (-1) = none
    ∧ scrollToMessage emptyExtractorState builtSidebarState (-1)
        = (builtSidebarState, []) :=
  ⟨Or.inl (by decide),
   (scrollToMessage_noop_on_missing emptyExtractorState builtSidebarState (-1)
      (Or.inl (by decide))).1,
   (scrollToMessage_noop_on_missing emptyExtractorState builtSidebarState (-1)
      (Or.inl (by decide))).2⟩

/-- C9: `createSidebar` is idempotent — when the sidebar element
already exists the call returns it and leaves the state unchanged, and
when it does not, one call builds it and attaches the listeners
exactly once, after which a repeated call returns the same instance
with no further change. -/
theorem createSidebar_idempotent (st : SidebarState) :
    (∀ sb, st.sidebarElement = some sb → createSidebar st = (sb, st))
    ∧ (st.sidebarElement = none →
        (createSidebar st).2.sidebarElement = some (createSidebar st).1
        ∧ (createSidebar st).2.listenersAttached = st.listenersAttached + 1
        ∧ createSidebar (createSidebar st).2
            = ((createSidebar st).1, (createSidebar st).2)) := by
  constructor
  · intro sb h
    simp [createSidebar, h]
  · intro h
    simp [createSidebar, h]

/-- Witness for C9: from the constructor state, one call builds the
sidebar (listener count 1) and a second call is the identity. -/
theorem createSidebar_idempotent_witness :
    initialSidebarState.sidebarElement = none
    ∧ ((createSidebar initialSidebarState).2.sidebarElement
          = some (createSidebar initialSidebarState).1
       ∧ (createSidebar initialSidebarState).2.listenersAttached
          = initialSidebarState.listenersAttached + 1
       ∧ createSidebar (createSidebar initialSidebarState).2
          = ((createSidebar initialSidebarState).1,
             (createSidebar initialSidebarState).2)) :=
  ⟨rfl, (createSidebar_idempotent initialSidebarState).2 rfl⟩

/-- C3 (amended): with the sidebar built, `toggle()` flips the
visibility state and persists the resulting boolean to extension-local
storage under `sidebarVisible`, while `show()` and `hide()` mutate the
visibility state but perform no storage write at all. -/
theorem toggle_persists_show_hide_do_not (st : SidebarState)
    (sb : SidebarDom) (h : st.sidebarElement = some sb) :
    ((toggleSidebar st).1.isVisible = !st.isVisible
      ∧ (toggleSidebar st).2 = [("sidebarVisible", !st.isVisible)])
    ∧ ((showSidebar st).1.isVisible = true ∧ (showSidebar st).2 = [])
    ∧ ((hideSidebar st).1.isVisible = false ∧ (hideSidebar st).2 = []) := by
  refine ⟨⟨?_, ?_⟩, ⟨?_, ?_⟩, ⟨?_, ?_⟩⟩ <;>
    simp [toggleSidebar, showSidebar, hideSidebar, h]

/-- Witness for C3 (amended): on the freshly built sidebar state,
`toggle` writes `sidebarVisible := false` while `show`/`hide` write
nothing. -/
theorem toggle_persists_show_hide_do_not_witness :
    builtSidebarState.sidebarElement = some freshSidebarDom
    ∧ (toggleSidebar builtSidebarState).2
        = [("sidebarVisible", !builtSidebarState.isVisible)]
    ∧ (showSidebar builtSidebarState).2 = []
    ∧ (hideSidebar builtSidebarState).2 = [] :=
  ⟨rfl,
   (toggle_persists_show_hide_do_not builtSidebarState freshSidebarDom rfl).1.2,
   (toggle_persists_show_hide_do_not builtSidebarState freshSidebarDom rfl).2.1.2,
   (toggle_persists_show_hide_do_not builtSidebarState freshSidebarDom rfl).2.2.2⟩

/-- C3 counterexample: `hide()` on a visible, built sidebar flips the
visibility state from `true` to `false` yet performs no storage write,
contradicting the claim that each of `toggle()`, `show()` and `hide()`
persists the resulting boolean under `sidebarVisible`. -/
theorem hide_writes_nothing_counterexample :
    builtSidebarState.isVisible = true
    ∧ (hideSidebar builtSidebarState).1.isVisible = false
    ∧ (hideSidebar builtSidebarState).2 = [] :=
  ⟨rfl, rfl, rfl⟩

end PromptEasy
